import Mathlib

/-!
# MSCFModel_MAC: an ACC car-following model

A shallow embedding of `MSCFModel_MAC.cpp` / `MSCFModel_MAC.h`.

* `SUMOReal` (a C++ `double`) is modelled by exact rationals; rounding is not
  modelled. The statements below are about the branch taken, the stored
  variables and the order of the computed quantities; how fast the speed
  approaches the desired speed depends on rounding and is not stated.
* The per-vehicle variables reached through `veh->getCarFollowVariables()`
  are passed explicitly and returned next to the computed speed.
* `MSNet::getInstance()->getCurrentTimeStep()` is the explicit argument `now`.
* Everything a call reads from the vehicle, its lane and the base class
  `MSCFModel` is collected in the record `Host`.
-/

namespace MSCFModel_MAC

/-- The simulator's floating point type, read as an exact rational. -/
abbrev SUMOReal := ℚ

/-- The simulator's time stamp type (an integer number of milliseconds). -/
abbrev SUMOTime := ℤ

/-! ## Defaults (`#define`s of the source) -/

def DEFAULT_SC_GAIN : SUMOReal := -0.4
def DEFAULT_GCC_GAIN_SPEED : SUMOReal := 0.8
def DEFAULT_GCC_GAIN_SPACE : SUMOReal := 0.04
def DEFAULT_GC_GAIN_SPEED : SUMOReal := 0.07
def DEFAULT_GC_GAIN_SPACE : SUMOReal := 0.23
def DEFAULT_CA_GAIN_SPACE : SUMOReal := 0.8
def DEFAULT_CA_GAIN_SPEED : SUMOReal := 0.23

/-- Margin by which `followSpeed` may exceed the safe speed before it is overridden. -/
def DEFAULT_EMERGENCY_OVERRIDE_THRESHOLD : SUMOReal := 2.0

/-! ## Data model -/

/-- Class `ACCVehicleVariables`: the control mode (`0` for speed control,
`1` for gap control) and the time step of the last mode update. -/
structure ACCVehicleVariables where
  ACC_ControlMode : ℤ
  lastUpdateTime : SUMOTime
  deriving DecidableEq, Repr

/-- Member function `createVehicleVariables` of the header. -/
def createVehicleVariables : ACCVehicleVariables :=
  { ACC_ControlMode := 0, lastUpdateTime := 0 }

/-- The data members of an `MSCFModel_MAC` object: the seven gains set by the
constructor, `myCollisionMinGapFactor`, and `myHeadwayTime` inherited from the
base class `MSCFModel`. -/
structure Model where
  mySpeedControlGain : SUMOReal
  myGapClosingControlGainSpeed : SUMOReal
  myGapClosingControlGainSpace : SUMOReal
  myGapControlGainSpeed : SUMOReal
  myGapControlGainSpace : SUMOReal
  myCollisionAvoidanceGainSpeed : SUMOReal
  myCollisionAvoidanceGainSpace : SUMOReal
  myCollisionMinGapFactor : SUMOReal
  myHeadwayTime : SUMOReal

/-- The constructor applied to a vehicle type that overrides no parameter:
every gain takes its default. The headway time comes from the base class. -/
def Model.ofDefaults (headwayTime : SUMOReal) : Model :=
  { mySpeedControlGain := DEFAULT_SC_GAIN
    myGapClosingControlGainSpeed := DEFAULT_GCC_GAIN_SPEED
    myGapClosingControlGainSpace := DEFAULT_GCC_GAIN_SPACE
    myGapControlGainSpeed := DEFAULT_GC_GAIN_SPEED
    myGapControlGainSpace := DEFAULT_GC_GAIN_SPACE
    myCollisionAvoidanceGainSpeed := DEFAULT_CA_GAIN_SPEED
    myCollisionAvoidanceGainSpace := DEFAULT_CA_GAIN_SPACE
    myCollisionMinGapFactor := 0.1
    myHeadwayTime := headwayTime }

/-- What the simulation kernel supplies to a call: values read from the
vehicle `veh`, its lane and its type, the step length `TS`, and the kinematic
bounds of the base class, which this file does not define. -/
structure Host where
  /-- Value of `veh->getLane()->getSpeedLimit()`. -/
  speedLimit : SUMOReal
  /-- Value of `veh->getMaxSpeed()`. -/
  maxSpeed : SUMOReal
  /-- Value of `veh->getVehicleType().getMinGap()`. -/
  minGap : SUMOReal
  /-- Value of `veh->getActionStepLengthSecs()`. -/
  actionStepLengthSecs : SUMOReal
  /-- Simulation step length in seconds. -/
  TS : SUMOReal
  /-- Base class bound `maximumSafeFollowSpeed(gap, egoSpeed, predSpeed, predMaxDecel)`. -/
  maximumSafeFollowSpeed : SUMOReal → SUMOReal → SUMOReal → SUMOReal → SUMOReal
  /-- Base class bound `maximumSafeStopSpeed(gap, currentSpeed, onInsertion, headway)`. -/
  maximumSafeStopSpeed : SUMOReal → SUMOReal → Bool → SUMOReal → SUMOReal
  /-- Base class bound `maxNextSpeed(speed, veh)`. -/
  maxNextSpeed : SUMOReal → SUMOReal

/-- Modelled from the spec: the helper `MIN2` (declared outside these two
files) is the minimum of its arguments. -/
def MIN2 (a b : SUMOReal) : SUMOReal := if a < b then a else b

/-- Modelled from the spec: the helper `MAX2` (declared outside these two
files) is the maximum of its arguments. -/
def MAX2 (a b : SUMOReal) : SUMOReal := if a > b then a else b

/-- Modelled from the spec: the conversion `ACCEL2SPEED` (declared outside
these two files) turns an acceleration into the speed change over one
simulation step, the acceleration times the step length. -/
def ACCEL2SPEED (h : Host) (x : SUMOReal) : SUMOReal := x * h.TS

/-- The C library function `fabs`. -/
def fabs (x : SUMOReal) : SUMOReal := |x|

/-! ## The control laws -/

/-- Speed control law. -/
def accelSpeedControl (m : Model) (vErr : SUMOReal) : SUMOReal :=
  m.mySpeedControlGain * vErr

/-- Gap control law. -/
def accelGapControl (m : Model) (h : Host) (gap2pred speed predSpeed : SUMOReal) : SUMOReal :=
  let desSpacing := m.myHeadwayTime * speed
  let gap := gap2pred - h.minGap
  let spacingErr := gap - desSpacing
  let deltaVel := predSpeed - speed
  if fabs spacingErr < 0.2 ∧ fabs deltaVel < 0.1 then
    -- gap mode
    m.myGapControlGainSpeed * deltaVel + m.myGapControlGainSpace * spacingErr
  else if spacingErr < 0 then
    -- collision avoidance mode
    m.myCollisionAvoidanceGainSpeed * deltaVel + m.myCollisionAvoidanceGainSpace * spacingErr
  else
    -- gap closing mode
    m.myGapClosingControlGainSpeed * deltaVel + m.myGapClosingControlGainSpace * spacingErr

/-- The three branches of the gap control law, named as in the source comments. -/
inductive GapBranch where
  | gapMode
  | collisionAvoidanceMode
  | gapClosingMode
  deriving DecidableEq, Repr

/-- The branch of `accelGapControl` that is executed for the given arguments. -/
def gapBranch (m : Model) (h : Host) (gap2pred speed predSpeed : SUMOReal) : GapBranch :=
  let desSpacing := m.myHeadwayTime * speed
  let gap := gap2pred - h.minGap
  let spacingErr := gap - desSpacing
  let deltaVel := predSpeed - speed
  if fabs spacingErr < 0.2 ∧ fabs deltaVel < 0.1 then GapBranch.gapMode
  else if spacingErr < 0 then GapBranch.collisionAvoidanceMode
  else GapBranch.gapClosingMode

/-- The private member function `_v`: the speed commanded by the ACC law and
the vehicle variables it leaves behind. The call sites hand the velocity error
to `accelGapControl` as a further argument, which the gap control law as
defined never reads. -/
def _v (m : Model) (h : Host) (now : SUMOTime) (vars : ACCVehicleVariables)
    (gap2pred speed predSpeed desSpeed : SUMOReal) : SUMOReal × ACCVehicleVariables :=
  let gapLimit_SC : SUMOReal := 120
  let gapLimit_GC : SUMOReal := 100
  let vErr := speed - desSpeed
  let setControlMode : Bool := decide (vars.lastUpdateTime ≠ now)
  let vars1 : ACCVehicleVariables :=
    if vars.lastUpdateTime ≠ now then { vars with lastUpdateTime := now } else vars
  let r : SUMOReal × ACCVehicleVariables :=
    if gap2pred > gapLimit_SC then
      (accelSpeedControl m vErr,
        if setControlMode then { vars1 with ACC_ControlMode := 0 } else vars1)
    else if gap2pred < gapLimit_GC then
      (accelGapControl m h gap2pred speed predSpeed,
        if setControlMode then { vars1 with ACC_ControlMode := 1 } else vars1)
    else
      let cm := vars1.ACC_ControlMode
      if cm = 0 then (accelSpeedControl m vErr, vars1)
      else (accelGapControl m h gap2pred speed predSpeed, vars1)
  let newSpeed := speed + ACCEL2SPEED h r.1
  (MAX2 0 newSpeed, r.2)

/-- The public member function `followSpeed`. -/
def followSpeed (m : Model) (h : Host) (now : SUMOTime) (vars : ACCVehicleVariables)
    (speed gap2pred predSpeed predMaxDecel : SUMOReal) : SUMOReal × ACCVehicleVariables :=
  let desSpeed := MIN2 h.speedLimit h.maxSpeed
  let r := _v m h now vars gap2pred speed predSpeed desSpeed
  let vACC := r.1
  let vSafe := h.maximumSafeFollowSpeed gap2pred speed predSpeed predMaxDecel
  if vSafe + DEFAULT_EMERGENCY_OVERRIDE_THRESHOLD < vACC then
    (vSafe + DEFAULT_EMERGENCY_OVERRIDE_THRESHOLD, r.2)
  else
    (vACC, r.2)

/-- The public member function `stopSpeed`. -/
def stopSpeed (h : Host) (vars : ACCVehicleVariables) (speed gap : SUMOReal) :
    SUMOReal × ACCVehicleVariables :=
  (MIN2 (h.maximumSafeStopSpeed gap speed false h.actionStepLengthSecs) (h.maxNextSpeed speed),
    vars)

/-- The public member function `interactionGap`. -/
def interactionGap (_veh : Host) (_vL : SUMOReal) : SUMOReal := 250

/-! ## Runs: several calls on the same vehicle -/

/-- The arguments of one call of `_v`, together with the time step at which it is made. -/
structure Call where
  now : SUMOTime
  gap2pred : SUMOReal
  speed : SUMOReal
  predSpeed : SUMOReal
  desSpeed : SUMOReal

/-- The vehicle variables after one call. -/
def stepV (m : Model) (h : Host) (vars : ACCVehicleVariables) (c : Call) : ACCVehicleVariables :=
  (_v m h c.now vars c.gap2pred c.speed c.predSpeed c.desSpeed).2

/-- The vehicle variables after each call of a sequence of calls, in order. -/
def traceV (m : Model) (h : Host) : ACCVehicleVariables → List Call → List ACCVehicleVariables
  | _, [] => []
  | vars, c :: cs => stepV m h vars c :: traceV m h (stepV m h vars c) cs

/-- How often neighbouring entries of a list of control modes differ. -/
def modeChanges : List ℤ → ℕ
  | a :: b :: rest => (if a ≠ b then 1 else 0) + modeChanges (b :: rest)
  | _ => 0

/-- The value of the local variable `accelACC` of `_v` when `newSpeed` is
computed: the speed law above the upper gap limit, the gap law below the lower
one, and between the two the law named by the stored control mode. -/
def accelACC (m : Model) (h : Host) (vars : ACCVehicleVariables)
    (gap2pred speed predSpeed desSpeed : SUMOReal) : SUMOReal :=
  if gap2pred > 120 then accelSpeedControl m (speed - desSpeed)
  else if gap2pred < 100 then accelGapControl m h gap2pred speed predSpeed
  else if vars.ACC_ControlMode = 0 then accelSpeedControl m (speed - desSpeed)
  else accelGapControl m h gap2pred speed predSpeed

/-! ## Concrete configurations used to evaluate the model -/

/-- A host with a step length of one second, a speed limit of 40, a minimum gap
of 2.5 and a safe following speed of 20 whatever the situation. -/
def hostA : Host :=
  { speedLimit := 40
    maxSpeed := 50
    minGap := 2.5
    actionStepLengthSecs := 1
    TS := 1
    maximumSafeFollowSpeed := fun _ _ _ _ => 20
    maximumSafeStopSpeed := fun gap _ _ _ => gap
    maxNextSpeed := fun v => v + 2.6 }

/-- The default gains with a headway time of one second. -/
def modelA : Model := Model.ofDefaults 1

/-- A call at time step 1000 with a gap of 50. -/
def callNear : Call := { now := 1000, gap2pred := 50, speed := 20, predSpeed := 20, desSpeed := 30 }

/-- A call at time step 1000 with a gap of 150. -/
def callFar : Call := { now := 1000, gap2pred := 150, speed := 20, predSpeed := 20, desSpeed := 30 }

/-- A host as `hostA`, except that the safe following speed is -5 whatever the
situation. -/
def hostC : Host := { hostA with maximumSafeFollowSpeed := fun _ _ _ _ => -5 }

/-- A host as `hostA`, except that the safe following speed is 100 whatever the
situation. -/
def hostD : Host := { hostA with maximumSafeFollowSpeed := fun _ _ _ _ => 100 }

/-- A call at time step 0 with a gap of 50. -/
def callNearZero : Call :=
  { now := 0, gap2pred := 50, speed := 20, predSpeed := 20, desSpeed := 30 }

/-- A call at time step 0 with a gap of 150. -/
def callFarZero : Call :=
  { now := 0, gap2pred := 150, speed := 20, predSpeed := 20, desSpeed := 30 }

/-- A call at time step 2000 with a gap of 110. -/
def callMid : Call :=
  { now := 2000, gap2pred := 110, speed := 20, predSpeed := 20, desSpeed := 30 }

/-- A call at time step 3000 with a gap of 100. -/
def callLow : Call :=
  { now := 3000, gap2pred := 100, speed := 20, predSpeed := 20, desSpeed := 30 }

/-- A call at time step 3000 with a gap of 120. -/
def callHigh : Call :=
  { now := 3000, gap2pred := 120, speed := 20, predSpeed := 20, desSpeed := 30 }

/-! ## Basic facts -/

theorem MAX2_eq_max (a b : SUMOReal) : MAX2 a b = max a b := by
  unfold MAX2
  split_ifs with hab
  · exact (max_eq_left (le_of_lt hab)).symm
  · exact (max_eq_right (not_lt.mp hab)).symm

theorem MIN2_eq_min (a b : SUMOReal) : MIN2 a b = min a b := by
  unfold MIN2
  split_ifs with hab
  · exact (min_eq_left (le_of_lt hab)).symm
  · exact (min_eq_right (not_lt.mp hab)).symm

/-- The speed returned by `_v`, in terms of the acceleration it selected. -/
theorem v_fst (m : Model) (h : Host) (now : SUMOTime) (vars : ACCVehicleVariables)
    (gap2pred speed predSpeed desSpeed : SUMOReal) :
    (_v m h now vars gap2pred speed predSpeed desSpeed).1 =
      MAX2 0 (speed + ACCEL2SPEED h (accelACC m h vars gap2pred speed predSpeed desSpeed)) := by
  unfold _v accelACC
  by_cases h1 : gap2pred > 120
  · simp [h1]
  · by_cases h2 : gap2pred < 100
    · simp [h1, h2]
    · by_cases h3 : vars.ACC_ControlMode = 0
      · by_cases h4 : vars.lastUpdateTime = now <;> simp [h1, h2, h3, h4]
      · by_cases h4 : vars.lastUpdateTime = now <;> simp [h1, h2, h3, h4]

/-- After a call the stored time step is the current one. -/
theorem stepV_lastUpdateTime (m : Model) (h : Host) (vars : ACCVehicleVariables) (c : Call) :
    (stepV m h vars c).lastUpdateTime = c.now := by
  unfold stepV _v
  by_cases h4 : vars.lastUpdateTime = c.now
  · by_cases h1 : c.gap2pred > 120
    · simp [h1, h4]
    · by_cases h2 : c.gap2pred < 100
      · simp [h1, h2, h4]
      · by_cases h3 : vars.ACC_ControlMode = 0 <;> simp [h1, h2, h3, h4]
  · by_cases h1 : c.gap2pred > 120
    · simp [h1, h4]
    · by_cases h2 : c.gap2pred < 100
      · simp [h1, h2, h4]
      · by_cases h3 : vars.ACC_ControlMode = 0 <;> simp [h1, h2, h3, h4]

/-- A call made at the stored time step leaves the vehicle variables as they are. -/
theorem stepV_of_same_time (m : Model) (h : Host) (vars : ACCVehicleVariables) (c : Call)
    (hnow : vars.lastUpdateTime = c.now) : stepV m h vars c = vars := by
  unfold stepV _v
  by_cases h1 : c.gap2pred > 120
  · simp [h1, hnow]
  · by_cases h2 : c.gap2pred < 100
    · simp [h1, h2, hnow]
    · by_cases h3 : vars.ACC_ControlMode = 0 <;> simp [h1, h2, h3, hnow]

/-- Calls that all carry the stored time step never leave the initial variables. -/
theorem traceV_of_same_time (m : Model) (h : Host) (t : SUMOTime) (cs : List Call) :
    ∀ vars : ACCVehicleVariables, vars.lastUpdateTime = t → (∀ x ∈ cs, x.now = t) →
      ∀ s ∈ traceV m h vars cs, s = vars := by
  induction cs with
  | nil => intro vars _ _ s hs; simp [traceV] at hs
  | cons c cs ih =>
    intro vars ht hcs s hs
    have hc : c.now = t := hcs c (List.mem_cons_self c cs)
    have hstep : stepV m h vars c = vars := stepV_of_same_time m h vars c (by rw [ht, hc])
    simp only [traceV, hstep, List.mem_cons] at hs
    rcases hs with hs | hs
    · exact hs
    · exact ih vars ht (fun x hx => hcs x (List.mem_cons_of_mem c hx)) s hs

/-- A list of modes that all equal the first one shows no change. -/
theorem modeChanges_of_const (b : ℤ) (l : List ℤ) (hl : ∀ x ∈ l, x = b) :
    modeChanges (b :: l) = 0 := by
  induction l with
  | nil => simp [modeChanges]
  | cons a l ih =>
    have ha : a = b := hl a (List.mem_cons_self a l)
    subst ha
    simp only [modeChanges, ne_eq, not_true_eq_false, if_false, zero_add]
    exact ih (fun x hx => hl x (List.mem_cons_of_mem a hx))

/-! ## The safety clamp -/

/-- C1: `followSpeed` returns the safe speed plus the margin 2.0 when that is
below the speed `vACC` commanded by `_v` for the desired speed
`MIN2 speedLimit maxSpeed`, and `vACC` itself otherwise; that is the minimum of
the two. -/
theorem followSpeed_eq_min (m : Model) (h : Host) (now : SUMOTime) (vars : ACCVehicleVariables)
    (speed gap2pred predSpeed predMaxDecel : SUMOReal) :
    (followSpeed m h now vars speed gap2pred predSpeed predMaxDecel).1 =
        (if h.maximumSafeFollowSpeed gap2pred speed predSpeed predMaxDecel + 2.0 <
              (_v m h now vars gap2pred speed predSpeed (MIN2 h.speedLimit h.maxSpeed)).1
          then h.maximumSafeFollowSpeed gap2pred speed predSpeed predMaxDecel + 2.0
          else (_v m h now vars gap2pred speed predSpeed (MIN2 h.speedLimit h.maxSpeed)).1) ∧
      (followSpeed m h now vars speed gap2pred predSpeed predMaxDecel).1 =
        min (_v m h now vars gap2pred speed predSpeed (MIN2 h.speedLimit h.maxSpeed)).1
          (h.maximumSafeFollowSpeed gap2pred speed predSpeed predMaxDecel + 2.0) := by
  have key : (followSpeed m h now vars speed gap2pred predSpeed predMaxDecel).1 =
      (if h.maximumSafeFollowSpeed gap2pred speed predSpeed predMaxDecel + 2.0 <
            (_v m h now vars gap2pred speed predSpeed (MIN2 h.speedLimit h.maxSpeed)).1
        then h.maximumSafeFollowSpeed gap2pred speed predSpeed predMaxDecel + 2.0
        else (_v m h now vars gap2pred speed predSpeed (MIN2 h.speedLimit h.maxSpeed)).1) := by
    unfold followSpeed DEFAULT_EMERGENCY_OVERRIDE_THRESHOLD
    dsimp only
    split_ifs <;> rfl
  refine ⟨key, ?_⟩
  rw [key]
  split_ifs with hlt
  · exact (min_eq_right (le_of_lt hlt)).symm
  · exact (min_eq_left (not_lt.mp hlt)).symm

/-- C1, evaluated: at speed 40 with a gap of 130 and a desired speed of 40 the
ACC law commands 40, the safe speed is 20, and `followSpeed` returns 22. -/
theorem followSpeed_eq_min_witness :
    (_v modelA hostA 1000 createVehicleVariables 130 40 40 (MIN2 hostA.speedLimit hostA.maxSpeed)).1
        = 40 ∧
      hostA.maximumSafeFollowSpeed 130 40 40 4.5 = 20 ∧
      (followSpeed modelA hostA 1000 createVehicleVariables 40 130 40 4.5).1 = 22 := by
  have hv : (_v modelA hostA 1000 createVehicleVariables 130 40 40
      (MIN2 hostA.speedLimit hostA.maxSpeed)).1 = 40 := by
    rw [v_fst]
    norm_num [accelACC, accelSpeedControl, ACCEL2SPEED, MAX2, MIN2, hostA, modelA,
      Model.ofDefaults, DEFAULT_SC_GAIN]
  refine ⟨hv, rfl, ?_⟩
  rw [(followSpeed_eq_min modelA hostA 1000 createVehicleVariables 40 130 40 4.5).2, hv]
  norm_num [hostA]

/-! ## Debounce -/

/-- C2: when every call of a sequence carries the same time step `t`, the
control mode after each call of the sequence is the mode left by the first
call, so the mode changes at most once over the whole sequence, whatever the
initial variables and the gaps. -/
theorem debounce_same_time (m : Model) (h : Host) (vars : ACCVehicleVariables) (t : SUMOTime)
    (c : Call) (cs : List Call) (hc : c.now = t) (hcs : ∀ x ∈ cs, x.now = t) :
    (∀ s ∈ traceV m h vars (c :: cs),
        s.ACC_ControlMode = (stepV m h vars c).ACC_ControlMode) ∧
      modeChanges (vars.ACC_ControlMode ::
        (traceV m h vars (c :: cs)).map (fun s => s.ACC_ControlMode)) ≤ 1 := by
  have hlast : (stepV m h vars c).lastUpdateTime = t := by
    rw [stepV_lastUpdateTime, hc]
  have hrest : ∀ s ∈ traceV m h (stepV m h vars c) cs, s = stepV m h vars c :=
    traceV_of_same_time m h t cs (stepV m h vars c) hlast hcs
  have hall : ∀ s ∈ traceV m h vars (c :: cs),
      s.ACC_ControlMode = (stepV m h vars c).ACC_ControlMode := by
    intro s hs
    simp only [traceV, List.mem_cons] at hs
    rcases hs with hs | hs
    · rw [hs]
    · rw [hrest s hs]
  refine ⟨hall, ?_⟩
  have hconst : modeChanges ((stepV m h vars c).ACC_ControlMode ::
      (traceV m h (stepV m h vars c) cs).map (fun s => s.ACC_ControlMode)) = 0 := by
    apply modeChanges_of_const
    intro x hx
    obtain ⟨s, hs, rfl⟩ := List.mem_map.mp hx
    rw [hrest s hs]
  simp only [traceV, List.map_cons, modeChanges, hconst, add_zero]
  split_ifs <;> simp

/-- C2, evaluated: from fresh variables a first call with gap 50 at time step
1000 sets gap control; the following calls with gaps 150 and 50 at the same time
step keep it. -/
theorem debounce_same_time_witness :
    (stepV modelA hostA createVehicleVariables callNear).ACC_ControlMode = 1 ∧
      ((∀ s ∈ traceV modelA hostA createVehicleVariables (callNear :: [callFar, callNear]),
          s.ACC_ControlMode =
            (stepV modelA hostA createVehicleVariables callNear).ACC_ControlMode) ∧
        modeChanges (createVehicleVariables.ACC_ControlMode ::
          (traceV modelA hostA createVehicleVariables (callNear :: [callFar, callNear])).map
            (fun s => s.ACC_ControlMode)) ≤ 1) := by
  refine ⟨?_, debounce_same_time modelA hostA createVehicleVariables 1000 callNear
    [callFar, callNear] rfl ?_⟩
  · norm_num [stepV, _v, callNear, createVehicleVariables]
  · intro x hx
    simp only [List.mem_cons, List.mem_singleton, List.not_mem_nil, or_false] at hx
    rcases hx with hx | hx <;> rw [hx] <;> rfl

/-! ## The speed commanded by `_v` -/

/-- C3: the speed returned by `_v` is the larger of 0 and the speed plus
`ACCEL2SPEED` of the selected acceleration; it is never negative, and it is 0
whenever that sum is negative. -/
theorem v_eq_max_zero (m : Model) (h : Host) (now : SUMOTime) (vars : ACCVehicleVariables)
    (gap2pred speed predSpeed desSpeed : SUMOReal) :
    (_v m h now vars gap2pred speed predSpeed desSpeed).1 =
        max 0 (speed + ACCEL2SPEED h (accelACC m h vars gap2pred speed predSpeed desSpeed)) ∧
      0 ≤ (_v m h now vars gap2pred speed predSpeed desSpeed).1 ∧
      (speed + ACCEL2SPEED h (accelACC m h vars gap2pred speed predSpeed desSpeed) < 0 →
        (_v m h now vars gap2pred speed predSpeed desSpeed).1 = 0) := by
  rw [v_fst, MAX2_eq_max]
  refine ⟨rfl, le_max_left _ _, fun hneg => max_eq_left (le_of_lt hneg)⟩

/-- C3, evaluated: at speed 4 behind a standing leader at gap 2.5 the collision
avoidance gains give a raw speed of -0.12, and `_v` returns 0. -/
theorem v_eq_max_zero_witness :
    4 + ACCEL2SPEED hostA (accelACC modelA hostA createVehicleVariables 2.5 4 0 40) = -0.12 ∧
      (_v modelA hostA 1000 createVehicleVariables 2.5 4 0 40).1 = 0 := by
  have hraw : 4 + ACCEL2SPEED hostA (accelACC modelA hostA createVehicleVariables 2.5 4 0 40)
      = -0.12 := by
    norm_num [accelACC, accelGapControl, fabs, ACCEL2SPEED, hostA, modelA, Model.ofDefaults,
      DEFAULT_CA_GAIN_SPEED, DEFAULT_CA_GAIN_SPACE, abs_lt]
  refine ⟨hraw, ?_⟩
  apply (v_eq_max_zero modelA hostA 1000 createVehicleVariables 2.5 4 0 40).2.2
  rw [hraw]
  norm_num

/-- C4: above the upper gap limit of 120 the speed law is the one evaluated,
whatever the stored mode, the time step and the leader speed. -/
theorem v_speed_zone (m : Model) (h : Host) (now : SUMOTime) (vars : ACCVehicleVariables)
    (gap2pred speed predSpeed desSpeed : SUMOReal) (hgap : gap2pred > 120) :
    (_v m h now vars gap2pred speed predSpeed desSpeed).1 =
      max 0 (speed + ACCEL2SPEED h (m.mySpeedControlGain * (speed - desSpeed))) := by
  rw [v_fst, MAX2_eq_max]
  simp [accelACC, accelSpeedControl, hgap]

/-- C4, evaluated: gain -0.4, speed 25, desired speed 30 and gap 130 give 27. -/
theorem v_speed_zone_witness :
    (130 : SUMOReal) > 120 ∧
      (_v modelA hostA 1000 createVehicleVariables 130 25 0 30).1 = 27 := by
  refine ⟨by norm_num, ?_⟩
  rw [v_speed_zone modelA hostA 1000 createVehicleVariables 130 25 0 30 (by norm_num)]
  norm_num [ACCEL2SPEED, hostA, modelA, Model.ofDefaults, DEFAULT_SC_GAIN]

/-- C5: below the lower gap limit of 100 the gap law is the one evaluated,
whatever the stored mode and the time step, and the returned speed is the same
for every desired speed. -/
theorem v_gap_zone (m : Model) (h : Host) (now : SUMOTime) (vars : ACCVehicleVariables)
    (gap2pred speed predSpeed desSpeed : SUMOReal) (hgap : gap2pred < 100) :
    (_v m h now vars gap2pred speed predSpeed desSpeed).1 =
        max 0 (speed + ACCEL2SPEED h (accelGapControl m h gap2pred speed predSpeed)) ∧
      ∀ (now2 : SUMOTime) (vars2 : ACCVehicleVariables) (desSpeed2 : SUMOReal),
        (_v m h now2 vars2 gap2pred speed predSpeed desSpeed2).1 =
          (_v m h now vars gap2pred speed predSpeed desSpeed).1 := by
  have hnot : ¬ gap2pred > 120 := by
    intro hgt
    have : (100 : SUMOReal) < 120 := by norm_num
    exact absurd (lt_trans hgt hgap) (not_lt.mpr (le_of_lt this))
  have key : ∀ (n : SUMOTime) (s : ACCVehicleVariables) (d : SUMOReal),
      (_v m h n s gap2pred speed predSpeed d).1 =
        max 0 (speed + ACCEL2SPEED h (accelGapControl m h gap2pred speed predSpeed)) := by
    intro n s d
    rw [v_fst, MAX2_eq_max]
    simp [accelACC, hgap, hnot]
  exact ⟨key now vars desSpeed, fun n s d => by rw [key n s d, key now vars desSpeed]⟩

/-- C5, evaluated: at gap 50, speed 20 and leader speed 20 the gap closing gains
give 21.1 from fresh variables with desired speed 30, and the same in gap control
mode at a later time step with desired speed 10. -/
theorem v_gap_zone_witness :
    (50 : SUMOReal) < 100 ∧
      (_v modelA hostA 1000 createVehicleVariables 50 20 20 30).1 = 21.1 ∧
      (_v modelA hostA 2000 { ACC_ControlMode := 1, lastUpdateTime := 1000 } 50 20 20 10).1 =
        (_v modelA hostA 1000 createVehicleVariables 50 20 20 30).1 := by
  have hthm := v_gap_zone modelA hostA 1000 createVehicleVariables 50 20 20 30 (by norm_num)
  refine ⟨by norm_num, ?_, hthm.2 2000 { ACC_ControlMode := 1, lastUpdateTime := 1000 } 10⟩
  rw [hthm.1]
  norm_num [accelGapControl, fabs, ACCEL2SPEED, hostA, modelA, Model.ofDefaults,
    DEFAULT_GCC_GAIN_SPEED, DEFAULT_GCC_GAIN_SPACE, abs_lt]

/-- C6: for a gap from 100 to 120, bounds included, the law evaluated is the one
named by the control mode stored before the call: the gap law for mode 1 (gap
control), whatever the desired speed, and the speed law for mode 0 (speed
control), whatever the leader speed. -/
theorem v_deadband (m : Model) (h : Host) (now : SUMOTime) (vars : ACCVehicleVariables)
    (gap2pred speed predSpeed desSpeed : SUMOReal) (hlo : 100 ≤ gap2pred)
    (hhi : gap2pred ≤ 120) :
    (vars.ACC_ControlMode = 1 →
        (_v m h now vars gap2pred speed predSpeed desSpeed).1 =
          max 0 (speed + ACCEL2SPEED h (accelGapControl m h gap2pred speed predSpeed))) ∧
      (vars.ACC_ControlMode = 0 →
        (_v m h now vars gap2pred speed predSpeed desSpeed).1 =
          max 0 (speed + ACCEL2SPEED h (m.mySpeedControlGain * (speed - desSpeed)))) := by
  have h1 : ¬ gap2pred > 120 := not_lt.mpr hhi
  have h2 : ¬ gap2pred < 100 := not_lt.mpr hlo
  constructor
  · intro hmode
    rw [v_fst, MAX2_eq_max]
    simp [accelACC, h1, h2, hmode]
  · intro hmode
    rw [v_fst, MAX2_eq_max]
    simp [accelACC, accelSpeedControl, h1, h2, hmode]

/-- C6, evaluated: in gap control mode at gap 110, speed 20 and leader speed 20
the gap closing gains give 23.5, not the 24 of the speed law. -/
theorem v_deadband_witness :
    (100 : SUMOReal) ≤ 110 ∧ (110 : SUMOReal) ≤ 120 ∧
      (_v modelA hostA 1000 { ACC_ControlMode := 1, lastUpdateTime := 0 } 110 20 20 30).1
        = 23.5 := by
  refine ⟨by norm_num, by norm_num, ?_⟩
  rw [(v_deadband modelA hostA 1000 { ACC_ControlMode := 1, lastUpdateTime := 0 } 110 20 20 30
    (by norm_num) (by norm_num)).1 rfl]
  norm_num [accelGapControl, fabs, ACCEL2SPEED, hostA, modelA, Model.ofDefaults,
    DEFAULT_GCC_GAIN_SPEED, DEFAULT_GCC_GAIN_SPACE, abs_lt]

/-! ## The gap control law -/

/-- C7: with `spacingErr = (gap2pred - minGap) - myHeadwayTime * speed` and
`deltaVel = predSpeed - speed`, `accelGapControl` uses the gap control gains when
`|spacingErr| < 0.2` and `|deltaVel| < 0.1`, otherwise the collision avoidance
gains when `spacingErr < 0`, otherwise the gap closing gains; exactly one of
the three cases applies. -/
theorem accelGapControl_cases (m : Model) (h : Host) (gap2pred speed predSpeed : SUMOReal) :
    ((|gap2pred - h.minGap - m.myHeadwayTime * speed| < 0.2 ∧ |predSpeed - speed| < 0.1) →
        accelGapControl m h gap2pred speed predSpeed =
          m.myGapControlGainSpeed * (predSpeed - speed) +
            m.myGapControlGainSpace * (gap2pred - h.minGap - m.myHeadwayTime * speed)) ∧
      (¬ (|gap2pred - h.minGap - m.myHeadwayTime * speed| < 0.2 ∧ |predSpeed - speed| < 0.1) →
        gap2pred - h.minGap - m.myHeadwayTime * speed < 0 →
        accelGapControl m h gap2pred speed predSpeed =
          m.myCollisionAvoidanceGainSpeed * (predSpeed - speed) +
            m.myCollisionAvoidanceGainSpace *
              (gap2pred - h.minGap - m.myHeadwayTime * speed)) ∧
      (¬ (|gap2pred - h.minGap - m.myHeadwayTime * speed| < 0.2 ∧ |predSpeed - speed| < 0.1) →
        ¬ gap2pred - h.minGap - m.myHeadwayTime * speed < 0 →
        accelGapControl m h gap2pred speed predSpeed =
          m.myGapClosingControlGainSpeed * (predSpeed - speed) +
            m.myGapClosingControlGainSpace *
              (gap2pred - h.minGap - m.myHeadwayTime * speed)) ∧
      (gapBranch m h gap2pred speed predSpeed = GapBranch.gapMode ↔
        (|gap2pred - h.minGap - m.myHeadwayTime * speed| < 0.2 ∧ |predSpeed - speed| < 0.1)) ∧
      (gapBranch m h gap2pred speed predSpeed = GapBranch.collisionAvoidanceMode ↔
        (¬ (|gap2pred - h.minGap - m.myHeadwayTime * speed| < 0.2 ∧ |predSpeed - speed| < 0.1) ∧
          gap2pred - h.minGap - m.myHeadwayTime * speed < 0)) ∧
      (gapBranch m h gap2pred speed predSpeed = GapBranch.gapClosingMode ↔
        (¬ (|gap2pred - h.minGap - m.myHeadwayTime * speed| < 0.2 ∧ |predSpeed - speed| < 0.1) ∧
          0 ≤ gap2pred - h.minGap - m.myHeadwayTime * speed)) := by
  unfold accelGapControl gapBranch fabs
  dsimp only
  by_cases hA : |gap2pred - h.minGap - m.myHeadwayTime * speed| < 0.2 ∧ |predSpeed - speed| < 0.1
  · simp [hA]
  · by_cases hB : gap2pred - h.minGap - m.myHeadwayTime * speed < 0
    · simp [hA, hB, not_le.mpr hB]
    · simp [hA, hB, not_lt.mp hB]

/-- C7, evaluated on one input of each branch with the default gains, headway
time 1 and minimum gap 2.5. -/
theorem accelGapControl_cases_witness :
    accelGapControl modelA hostA 22.6 20 20.05 = 0.0265 ∧
      accelGapControl modelA hostA 12.5 20 10 = -10.3 ∧
      accelGapControl modelA hostA 50 20 20 = 1.1 := by
  refine ⟨?_, ?_, ?_⟩
  · rw [(accelGapControl_cases modelA hostA 22.6 20 20.05).1
      (by norm_num [hostA, modelA, Model.ofDefaults, abs_lt])]
    norm_num [hostA, modelA, Model.ofDefaults, DEFAULT_GC_GAIN_SPEED, DEFAULT_GC_GAIN_SPACE]
  · rw [(accelGapControl_cases modelA hostA 12.5 20 10).2.1
      (by norm_num [hostA, modelA, Model.ofDefaults, abs_lt])
      (by norm_num [hostA, modelA, Model.ofDefaults])]
    norm_num [hostA, modelA, Model.ofDefaults, DEFAULT_CA_GAIN_SPEED, DEFAULT_CA_GAIN_SPACE]
  · rw [(accelGapControl_cases modelA hostA 50 20 20).2.2.1
      (by norm_num [hostA, modelA, Model.ofDefaults, abs_lt])
      (by norm_num [hostA, modelA, Model.ofDefaults])]
    norm_num [hostA, modelA, Model.ofDefaults, DEFAULT_GCC_GAIN_SPEED, DEFAULT_GCC_GAIN_SPACE]

/-- C8 as stated fails: with a spacing error of exactly 0 and a speed
difference of 0.05 the gap control gains are used, giving 0.0035 and not the
0.04 of the gap closing gains. -/
theorem accelGapControl_zero_spacing_counterexample :
    (22.5 : SUMOReal) - hostA.minGap = modelA.myHeadwayTime * 20 ∧
      accelGapControl modelA hostA 22.5 20 20.05 = 0.0035 ∧
      modelA.myGapClosingControlGainSpeed * (20.05 - 20) +
        modelA.myGapClosingControlGainSpace * (22.5 - hostA.minGap - modelA.myHeadwayTime * 20)
          = 0.04 ∧
      accelGapControl modelA hostA 22.5 20 20.05 ≠
        modelA.myGapClosingControlGainSpeed * (20.05 - 20) +
          modelA.myGapClosingControlGainSpace *
            (22.5 - hostA.minGap - modelA.myHeadwayTime * 20) := by
  refine ⟨?_, ?_, ?_, ?_⟩ <;>
    norm_num [accelGapControl, fabs, hostA, modelA, Model.ofDefaults, DEFAULT_GC_GAIN_SPEED,
      DEFAULT_GC_GAIN_SPACE, DEFAULT_GCC_GAIN_SPEED, DEFAULT_GCC_GAIN_SPACE, abs_lt]

/-- C8, amended: with a spacing error of exactly 0 the collision avoidance
branch is never the one executed; the acceleration is the gap closing one when
`|deltaVel| ≥ 0.1` and the gap control one when `|deltaVel| < 0.1`. -/
theorem accelGapControl_zero_spacing (m : Model) (h : Host) (gap2pred speed predSpeed : SUMOReal)
    (hzero : gap2pred - h.minGap = m.myHeadwayTime * speed) :
    gapBranch m h gap2pred speed predSpeed ≠ GapBranch.collisionAvoidanceMode ∧
      (0.1 ≤ |predSpeed - speed| →
        gapBranch m h gap2pred speed predSpeed = GapBranch.gapClosingMode ∧
        accelGapControl m h gap2pred speed predSpeed =
          m.myGapClosingControlGainSpeed * (predSpeed - speed) +
            m.myGapClosingControlGainSpace *
              (gap2pred - h.minGap - m.myHeadwayTime * speed)) ∧
      (|predSpeed - speed| < 0.1 →
        gapBranch m h gap2pred speed predSpeed = GapBranch.gapMode ∧
        accelGapControl m h gap2pred speed predSpeed =
          m.myGapControlGainSpeed * (predSpeed - speed) +
            m.myGapControlGainSpace * (gap2pred - h.minGap - m.myHeadwayTime * speed)) := by
  have hse : gap2pred - h.minGap - m.myHeadwayTime * speed = 0 := by rw [hzero]; ring
  unfold accelGapControl gapBranch fabs
  dsimp only
  rw [hse]
  have h02 : (0 : SUMOReal) < 0.2 := by norm_num
  refine ⟨?_, ?_, ?_⟩
  · by_cases hdv : |predSpeed - speed| < 0.1 <;> simp [hdv, h02]
  · intro hdv
    simp [not_lt.mpr hdv]
  · intro hdv
    simp [hdv, h02]

/-- C8 amended, evaluated: spacing error 0 and a leader slower by 5 gives the
gap closing acceleration -4. -/
theorem accelGapControl_zero_spacing_witness :
    (22.5 : SUMOReal) - hostA.minGap = modelA.myHeadwayTime * 20 ∧
      gapBranch modelA hostA 22.5 20 15 = GapBranch.gapClosingMode ∧
      accelGapControl modelA hostA 22.5 20 15 = -4 := by
  have hzero : (22.5 : SUMOReal) - hostA.minGap = modelA.myHeadwayTime * 20 := by
    norm_num [hostA, modelA, Model.ofDefaults]
  have hthm := (accelGapControl_zero_spacing modelA hostA 22.5 20 15 hzero).2.1 (by norm_num)
  refine ⟨hzero, hthm.1, ?_⟩
  rw [hthm.2]
  norm_num [hostA, modelA, Model.ofDefaults, DEFAULT_GCC_GAIN_SPEED, DEFAULT_GCC_GAIN_SPACE]

/-! ## The speed control law -/

/-- C10: `accelSpeedControl` is the product of the speed control gain and the
velocity error; for a negative gain it is positive for a negative error,
negative for a positive error and 0 for error 0. -/
theorem accelSpeedControl_sign (m : Model) (vErr : SUMOReal) (hk : m.mySpeedControlGain < 0) :
    accelSpeedControl m vErr = m.mySpeedControlGain * vErr ∧
      (vErr < 0 → 0 < accelSpeedControl m vErr) ∧
      (0 < vErr → accelSpeedControl m vErr < 0) ∧
      (vErr = 0 → accelSpeedControl m vErr = 0) := by
  unfold accelSpeedControl
  refine ⟨rfl, ?_, ?_, ?_⟩
  · intro hneg
    exact mul_pos_of_neg_of_neg hk hneg
  · intro hpos
    exact mul_neg_of_neg_of_pos hk hpos
  · intro hz
    rw [hz, mul_zero]

/-- C10, evaluated: gain -0.4 and velocity error -5 give the acceleration 2. -/
theorem accelSpeedControl_sign_witness :
    modelA.mySpeedControlGain < 0 ∧ accelSpeedControl modelA (25 - 30) = 2 ∧
      0 < accelSpeedControl modelA (25 - 30) := by
  have hk : modelA.mySpeedControlGain < 0 := by
    norm_num [modelA, Model.ofDefaults, DEFAULT_SC_GAIN]
  have hthm := accelSpeedControl_sign modelA (25 - 30) hk
  refine ⟨hk, ?_, hthm.2.1 (by norm_num)⟩
  rw [hthm.1]
  norm_num [modelA, Model.ofDefaults, DEFAULT_SC_GAIN]

/-- The vehicle variables returned by `_v`: the time step is the current one,
and the mode is rewritten only when the stored time step differs from the
current one and the gap lies outside the range from 100 to 120. -/
theorem v_snd (m : Model) (h : Host) (now : SUMOTime) (vars : ACCVehicleVariables)
    (gap2pred speed predSpeed desSpeed : SUMOReal) :
    (_v m h now vars gap2pred speed predSpeed desSpeed).2 =
      { ACC_ControlMode :=
          if vars.lastUpdateTime ≠ now ∧ gap2pred > 120 then 0
          else if vars.lastUpdateTime ≠ now ∧ gap2pred < 100 then 1
          else vars.ACC_ControlMode
        lastUpdateTime := now } := by
  obtain ⟨mode, last⟩ := vars
  unfold _v
  by_cases h4 : last = now
  · subst h4
    by_cases h1 : gap2pred > 120
    · simp [h1]
    · by_cases h2 : gap2pred < 100
      · simp [h1, h2]
      · by_cases h3 : mode = 0 <;> simp [h1, h2, h3]
  · by_cases h1 : gap2pred > 120
    · simp [h1, h4]
    · by_cases h2 : gap2pred < 100
      · simp [h1, h2, h4]
      · by_cases h3 : mode = 0 <;> simp [h1, h2, h3, h4]

/-- The vehicle variables returned by `followSpeed` are those returned by `_v`. -/
theorem followSpeed_snd (m : Model) (h : Host) (now : SUMOTime) (vars : ACCVehicleVariables)
    (speed gap2pred predSpeed predMaxDecel : SUMOReal) :
    (followSpeed m h now vars speed gap2pred predSpeed predMaxDecel).2 =
      (_v m h now vars gap2pred speed predSpeed (MIN2 h.speedLimit h.maxSpeed)).2 := by
  unfold followSpeed
  dsimp only
  split_ifs <;> rfl

/-! ## Stopping and interaction range -/

/-- C11: `stopSpeed` returns the minimum of `maximumSafeStopSpeed(gap, speed,
false, actionStepLength)` and `maxNextSpeed(speed)`, so it exceeds neither; it
leaves the vehicle variables as they are and returns the same speed for all
vehicle variables. -/
theorem stopSpeed_eq_min (h : Host) (vars : ACCVehicleVariables) (speed gap : SUMOReal) :
    (stopSpeed h vars speed gap).1 =
        min (h.maximumSafeStopSpeed gap speed false h.actionStepLengthSecs)
          (h.maxNextSpeed speed) ∧
      (stopSpeed h vars speed gap).1 ≤
        h.maximumSafeStopSpeed gap speed false h.actionStepLengthSecs ∧
      (stopSpeed h vars speed gap).1 ≤ h.maxNextSpeed speed ∧
      (stopSpeed h vars speed gap).2 = vars ∧
      ∀ vars2 : ACCVehicleVariables,
        (stopSpeed h vars2 speed gap).1 = (stopSpeed h vars speed gap).1 := by
  have hmin : (stopSpeed h vars speed gap).1 =
      min (h.maximumSafeStopSpeed gap speed false h.actionStepLengthSecs)
        (h.maxNextSpeed speed) := by
    unfold stopSpeed
    exact MIN2_eq_min _ _
  refine ⟨hmin, ?_, ?_, rfl, fun _ => rfl⟩
  · rw [hmin]; exact min_le_left _ _
  · rw [hmin]; exact min_le_right _ _

/-- C11, evaluated: with a safe stop speed of 5 and a reachable speed of 12.6
the result is 5, and the variables are untouched. -/
theorem stopSpeed_eq_min_witness :
    (stopSpeed hostA { ACC_ControlMode := 1, lastUpdateTime := 1000 } 10 5).1 = 5 ∧
      (stopSpeed hostA { ACC_ControlMode := 1, lastUpdateTime := 1000 } 10 5).2 =
        { ACC_ControlMode := 1, lastUpdateTime := 1000 } := by
  have hthm := stopSpeed_eq_min hostA { ACC_ControlMode := 1, lastUpdateTime := 1000 } 10 5
  refine ⟨?_, hthm.2.2.2.1⟩
  rw [hthm.1]
  norm_num [hostA]

/-- C12: `interactionGap` returns 250 for every vehicle and every leader speed. -/
theorem interactionGap_eq (veh : Host) (vL : SUMOReal) : interactionGap veh vL = 250 := by
  unfold interactionGap
  rfl

/-! ## The mode transition -/

/-- C13: after a call of `_v` at time step `now` the stored time step is `now`;
the new mode is 0 (speed control) if `now` differs from the stored time step and
the gap is above 120, 1 (gap control) if it differs and the gap is below 100,
and the old mode if the time steps agree or the gap is from 100 to 120; a call
at the stored time step leaves the vehicle variables unchanged. -/
theorem v_state_transition (m : Model) (h : Host) (now : SUMOTime) (vars : ACCVehicleVariables)
    (gap2pred speed predSpeed desSpeed : SUMOReal) :
    (_v m h now vars gap2pred speed predSpeed desSpeed).2.lastUpdateTime = now ∧
      (now ≠ vars.lastUpdateTime → gap2pred > 120 →
        (_v m h now vars gap2pred speed predSpeed desSpeed).2.ACC_ControlMode = 0) ∧
      (now ≠ vars.lastUpdateTime → gap2pred < 100 →
        (_v m h now vars gap2pred speed predSpeed desSpeed).2.ACC_ControlMode = 1) ∧
      (now = vars.lastUpdateTime ∨ (100 ≤ gap2pred ∧ gap2pred ≤ 120) →
        (_v m h now vars gap2pred speed predSpeed desSpeed).2.ACC_ControlMode =
          vars.ACC_ControlMode) ∧
      (now = vars.lastUpdateTime →
        (_v m h now vars gap2pred speed predSpeed desSpeed).2 = vars) := by
  rw [v_snd]
  refine ⟨rfl, ?_, ?_, ?_, ?_⟩
  · intro hne hgap
    simp [Ne.symm hne, hgap]
  · intro hne hgap
    have hnot : ¬ gap2pred > 120 := by
      intro hgt
      linarith
    simp [Ne.symm hne, hgap, hnot]
  · rintro (heq | ⟨hlo, hhi⟩)
    · simp [heq]
    · simp [not_lt.mpr hhi, not_lt.mpr hlo]
  · intro heq
    obtain ⟨mode, last⟩ := vars
    simp only at heq
    simp [heq]

/-- C13, evaluated from mode 0 stored at time step 1000: a later call with gap
50 sets mode 1, a later call with gap 110 keeps mode 0, and a call at time step
1000 with gap 50 changes nothing. -/
theorem v_state_transition_witness :
    (_v modelA hostA 2000 { ACC_ControlMode := 0, lastUpdateTime := 1000 } 50 20 20 30).2 =
        { ACC_ControlMode := 1, lastUpdateTime := 2000 } ∧
      (_v modelA hostA 2000 { ACC_ControlMode := 0, lastUpdateTime := 1000 } 110 20 20 30).2 =
        { ACC_ControlMode := 0, lastUpdateTime := 2000 } ∧
      (_v modelA hostA 1000 { ACC_ControlMode := 0, lastUpdateTime := 1000 } 50 20 20 30).2 =
        { ACC_ControlMode := 0, lastUpdateTime := 1000 } := by
  have h1 := v_state_transition modelA hostA 2000
    { ACC_ControlMode := 0, lastUpdateTime := 1000 } 50 20 20 30
  have h2 := v_state_transition modelA hostA 2000
    { ACC_ControlMode := 0, lastUpdateTime := 1000 } 110 20 20 30
  have h3 := v_state_transition modelA hostA 1000
    { ACC_ControlMode := 0, lastUpdateTime := 1000 } 50 20 20 30
  refine ⟨?_, ?_, h3.2.2.2.2 rfl⟩
  · have ht := h1.1
    have hm := h1.2.2.1 (by decide) (by norm_num)
    revert ht hm
    generalize (_v modelA hostA 2000 { ACC_ControlMode := 0, lastUpdateTime := 1000 }
      50 20 20 30).2 = r
    obtain ⟨rm, rt⟩ := r
    intro ht hm
    simp only at ht hm
    rw [ht, hm]
  · have ht := h2.1
    have hm := h2.2.2.2.1 (Or.inr ⟨by norm_num, by norm_num⟩)
    revert ht hm
    generalize (_v modelA hostA 2000 { ACC_ControlMode := 0, lastUpdateTime := 1000 }
      110 20 20 30).2 = r
    obtain ⟨rm, rt⟩ := r
    intro ht hm
    simp only at ht hm
    rw [ht, hm]

/-- The mode after one call, in terms of the mode and time step before it. -/
theorem stepV_mode (m : Model) (h : Host) (vars : ACCVehicleVariables) (c : Call) :
    (stepV m h vars c).ACC_ControlMode =
      if vars.lastUpdateTime ≠ c.now ∧ c.gap2pred > 120 then 0
      else if vars.lastUpdateTime ≠ c.now ∧ c.gap2pred < 100 then 1
      else vars.ACC_ControlMode := by
  unfold stepV
  rw [v_snd]

/-- A call with a gap of at least 100 keeps mode 0. -/
theorem stepV_keeps_speed_mode (m : Model) (h : Host) (vars : ACCVehicleVariables) (c : Call)
    (hgap : 100 ≤ c.gap2pred) (hmode : vars.ACC_ControlMode = 0) :
    (stepV m h vars c).ACC_ControlMode = 0 := by
  rw [stepV_mode]
  have hnot : ¬ c.gap2pred < 100 := not_lt.mpr hgap
  split_ifs with h1 h2
  · rfl
  · exact absurd h2.2 hnot
  · exact hmode

/-- A call with a gap of at most 120 keeps mode 1. -/
theorem stepV_keeps_gap_mode (m : Model) (h : Host) (vars : ACCVehicleVariables) (c : Call)
    (hgap : c.gap2pred ≤ 120) (hmode : vars.ACC_ControlMode = 1) :
    (stepV m h vars c).ACC_ControlMode = 1 := by
  rw [stepV_mode]
  have hnot : ¬ c.gap2pred > 120 := not_lt.mpr hgap
  split_ifs with h1 h2
  · exact absurd h1.2 hnot
  · rfl
  · exact hmode

/-- A property of the mode that every admissible call preserves holds after
every call of a run of admissible calls. -/
theorem traceV_mode_invariant (m : Model) (h : Host) (good : Call → Prop) (k : ℤ)
    (hstep : ∀ (s : ACCVehicleVariables) (c : Call), good c → s.ACC_ControlMode = k →
      (stepV m h s c).ACC_ControlMode = k) (cs : List Call) :
    ∀ vars : ACCVehicleVariables, (∀ c ∈ cs, good c) → vars.ACC_ControlMode = k →
      ∀ s ∈ traceV m h vars cs, s.ACC_ControlMode = k := by
  induction cs with
  | nil => intro vars _ _ s hs; simp [traceV] at hs
  | cons c cs ih =>
    intro vars hgood hmode s hs
    have hc : (stepV m h vars c).ACC_ControlMode = k :=
      hstep vars c (hgood c (List.mem_cons_self c cs)) hmode
    simp only [traceV, List.mem_cons] at hs
    rcases hs with hs | hs
    · rw [hs]; exact hc
    · exact ih (stepV m h vars c) (fun x hx => hgood x (List.mem_cons_of_mem c hx)) hc s hs

/-! ## Hysteresis -/

/-- C14: over a run of calls with arbitrary time steps, mode 0 (speed control)
persists after every call while every gap is at least 100, and mode 1 (gap
control) persists after every call while every gap is at most 120; a call that
switches to mode 1 has a gap below 100 and a call that switches to mode 0 has a
gap above 120. A `followSpeed` call leaves the variables of its `_v` call. -/
theorem hysteresis_run (m : Model) (h : Host) (vars : ACCVehicleVariables) (cs : List Call) :
    ((∀ c ∈ cs, 100 ≤ c.gap2pred) → vars.ACC_ControlMode = 0 →
        ∀ s ∈ traceV m h vars cs, s.ACC_ControlMode = 0) ∧
      ((∀ c ∈ cs, c.gap2pred ≤ 120) → vars.ACC_ControlMode = 1 →
        ∀ s ∈ traceV m h vars cs, s.ACC_ControlMode = 1) ∧
      (∀ (s : ACCVehicleVariables) (c : Call), s.ACC_ControlMode ≠ 1 →
        (stepV m h s c).ACC_ControlMode = 1 → c.gap2pred < 100) ∧
      (∀ (s : ACCVehicleVariables) (c : Call), s.ACC_ControlMode ≠ 0 →
        (stepV m h s c).ACC_ControlMode = 0 → c.gap2pred > 120) ∧
      (∀ (s : ACCVehicleVariables) (now : SUMOTime) (speed gap2pred predSpeed predMaxDecel :
          SUMOReal),
        (followSpeed m h now s speed gap2pred predSpeed predMaxDecel).2 =
          stepV m h s
            { now := now, gap2pred := gap2pred, speed := speed, predSpeed := predSpeed,
              desSpeed := MIN2 h.speedLimit h.maxSpeed }) := by
  refine ⟨?_, ?_, ?_, ?_, ?_⟩
  · intro hgaps hmode
    exact traceV_mode_invariant m h (fun c => 100 ≤ c.gap2pred) 0
      (fun s c hc hs => stepV_keeps_speed_mode m h s c hc hs) cs vars hgaps hmode
  · intro hgaps hmode
    exact traceV_mode_invariant m h (fun c => c.gap2pred ≤ 120) 1
      (fun s c hc hs => stepV_keeps_gap_mode m h s c hc hs) cs vars hgaps hmode
  · intro s c hold hnew
    rw [stepV_mode] at hnew
    split_ifs at hnew with h1 h2
    · exact absurd hnew (by decide)
    · exact h2.2
    · exact absurd hnew hold
  · intro s c hold hnew
    rw [stepV_mode] at hnew
    split_ifs at hnew with h1 h2
    · exact h1.2
    · exact absurd hnew (by decide)
    · exact absurd hnew hold
  · intro s now speed gap2pred predSpeed predMaxDecel
    rw [followSpeed_snd]
    rfl

/-- C14, evaluated: from mode 0 the gaps 110, 100 and 150 at the time steps
2000, 3000 and 1000 keep mode 0, and from mode 1 the gaps 110, 120 and 50 keep
mode 1. -/
theorem hysteresis_run_witness :
    (∀ s ∈ traceV modelA hostA createVehicleVariables [callMid, callLow, callFar],
        s.ACC_ControlMode = 0) ∧
      (∀ s ∈ traceV modelA hostA { ACC_ControlMode := 1, lastUpdateTime := 0 }
          [callMid, callHigh, callNear],
        s.ACC_ControlMode = 1) := by
  constructor
  · apply (hysteresis_run modelA hostA createVehicleVariables [callMid, callLow, callFar]).1
    · intro c hc
      simp only [List.mem_cons, List.mem_singleton, List.not_mem_nil, or_false] at hc
      rcases hc with hc | hc | hc <;> rw [hc] <;> norm_num [callMid, callLow, callFar]
    · rfl
  · apply (hysteresis_run modelA hostA { ACC_ControlMode := 1, lastUpdateTime := 0 }
      [callMid, callHigh, callNear]).2.1
    · intro c hc
      simp only [List.mem_cons, List.mem_singleton, List.not_mem_nil, or_false] at hc
      rcases hc with hc | hc | hc <;> rw [hc] <;> norm_num [callMid, callHigh, callNear]
    · rfl

/-! ## Further facts on the commanded speed -/

/-- The speed returned by `_v` is never negative. -/
theorem v_fst_nonneg (m : Model) (h : Host) (now : SUMOTime) (vars : ACCVehicleVariables)
    (gap2pred speed predSpeed desSpeed : SUMOReal) :
    0 ≤ (_v m h now vars gap2pred speed predSpeed desSpeed).1 := by
  rw [v_fst, MAX2_eq_max]
  exact le_max_left _ _

/-- The speed returned by `followSpeed`, as the source computes it. -/
theorem followSpeed_fst (m : Model) (h : Host) (now : SUMOTime) (vars : ACCVehicleVariables)
    (speed gap2pred predSpeed predMaxDecel : SUMOReal) :
    (followSpeed m h now vars speed gap2pred predSpeed predMaxDecel).1 =
      (if h.maximumSafeFollowSpeed gap2pred speed predSpeed predMaxDecel + 2.0 <
            (_v m h now vars gap2pred speed predSpeed (MIN2 h.speedLimit h.maxSpeed)).1
        then h.maximumSafeFollowSpeed gap2pred speed predSpeed predMaxDecel + 2.0
        else (_v m h now vars gap2pred speed predSpeed (MIN2 h.speedLimit h.maxSpeed)).1) := by
  unfold followSpeed DEFAULT_EMERGENCY_OVERRIDE_THRESHOLD
  dsimp only
  split_ifs <;> rfl

/-- Outside the range from 100 to 120 the selected acceleration is the same for
all vehicle variables. -/
theorem accelACC_outside (m : Model) (h : Host) (vars vars2 : ACCVehicleVariables)
    (gap2pred speed predSpeed desSpeed : SUMOReal) (hgap : gap2pred > 120 ∨ gap2pred < 100) :
    accelACC m h vars gap2pred speed predSpeed desSpeed =
      accelACC m h vars2 gap2pred speed predSpeed desSpeed := by
  unfold accelACC
  rcases hgap with hgt | hlt
  · simp [hgt]
  · by_cases hgt : gap2pred > 120 <;> simp [hgt, hlt]

/-- C15: `followSpeed` returns a non-negative speed exactly when the safe speed
plus 2.0 is non-negative; when the safe speed is below -2.0 the result is the
negative value safe speed plus 2.0. -/
theorem followSpeed_sign (m : Model) (h : Host) (now : SUMOTime) (vars : ACCVehicleVariables)
    (speed gap2pred predSpeed predMaxDecel : SUMOReal) :
    (0 ≤ (followSpeed m h now vars speed gap2pred predSpeed predMaxDecel).1 ↔
        0 ≤ h.maximumSafeFollowSpeed gap2pred speed predSpeed predMaxDecel + 2.0) ∧
      (h.maximumSafeFollowSpeed gap2pred speed predSpeed predMaxDecel < -2.0 →
        (followSpeed m h now vars speed gap2pred predSpeed predMaxDecel).1 =
            h.maximumSafeFollowSpeed gap2pred speed predSpeed predMaxDecel + 2.0 ∧
          (followSpeed m h now vars speed gap2pred predSpeed predMaxDecel).1 < 0) := by
  have hv := v_fst_nonneg m h now vars gap2pred speed predSpeed (MIN2 h.speedLimit h.maxSpeed)
  rw [followSpeed_fst]
  constructor
  · split_ifs with hlt
    · exact Iff.rfl
    · constructor
      · intro _
        exact le_trans hv (not_lt.mp hlt)
      · intro _
        exact hv
  · intro hneg
    have hlt : h.maximumSafeFollowSpeed gap2pred speed predSpeed predMaxDecel + 2.0 <
        (_v m h now vars gap2pred speed predSpeed (MIN2 h.speedLimit h.maxSpeed)).1 := by
      have h2 : h.maximumSafeFollowSpeed gap2pred speed predSpeed predMaxDecel + 2.0 < 0 := by
        norm_num at hneg ⊢
        linarith
      exact lt_of_lt_of_le h2 hv
    rw [if_pos hlt]
    refine ⟨rfl, ?_⟩
    norm_num at hneg ⊢
    linarith

/-- C15, evaluated: with a safe speed of -5 `followSpeed` returns -3. -/
theorem followSpeed_sign_witness :
    hostC.maximumSafeFollowSpeed 130 40 40 4.5 = -5 ∧
      (followSpeed modelA hostC 1000 createVehicleVariables 40 130 40 4.5).1 = -3 ∧
      (followSpeed modelA hostC 1000 createVehicleVariables 40 130 40 4.5).1 < 0 := by
  have hthm := (followSpeed_sign modelA hostC 1000 createVehicleVariables 40 130 40 4.5).2
    (by norm_num [hostC])
  refine ⟨rfl, ?_, hthm.2⟩
  rw [hthm.1]
  norm_num [hostC]

/-- C17: for a gap above 120 or below 100, two `followSpeed` calls with the same
arguments and host return the same speed whatever their vehicle variables and
time steps; two such calls can return different speeds only for a gap from 100
to 120. -/
theorem followSpeed_state_independent (m : Model) (h : Host) (now now2 : SUMOTime)
    (vars vars2 : ACCVehicleVariables) (speed gap2pred predSpeed predMaxDecel : SUMOReal) :
    ((gap2pred > 120 ∨ gap2pred < 100) →
        (followSpeed m h now vars speed gap2pred predSpeed predMaxDecel).1 =
          (followSpeed m h now2 vars2 speed gap2pred predSpeed predMaxDecel).1) ∧
      ((followSpeed m h now vars speed gap2pred predSpeed predMaxDecel).1 ≠
          (followSpeed m h now2 vars2 speed gap2pred predSpeed predMaxDecel).1 →
        100 ≤ gap2pred ∧ gap2pred ≤ 120) := by
  have key : (gap2pred > 120 ∨ gap2pred < 100) →
      (followSpeed m h now vars speed gap2pred predSpeed predMaxDecel).1 =
        (followSpeed m h now2 vars2 speed gap2pred predSpeed predMaxDecel).1 := by
    intro hgap
    have hv : (_v m h now vars gap2pred speed predSpeed (MIN2 h.speedLimit h.maxSpeed)).1 =
        (_v m h now2 vars2 gap2pred speed predSpeed (MIN2 h.speedLimit h.maxSpeed)).1 := by
      rw [v_fst, v_fst, accelACC_outside m h vars vars2 gap2pred speed predSpeed _ hgap]
    rw [followSpeed_fst, followSpeed_fst, hv]
  refine ⟨key, ?_⟩
  intro hne
  by_contra hout
  apply hne
  apply key
  by_cases hgt : gap2pred > 120
  · exact Or.inl hgt
  · right
    by_contra hlt
    exact hout ⟨not_lt.mp hlt, not_lt.mp hgt⟩

/-- C17, evaluated with a safe speed of 100: at gap 50 fresh variables at time
step 1000 and mode 1 at time step 2000 give the same speed, while at gap 110 mode
0 gives 24 and mode 1 gives 23.5. -/
theorem followSpeed_state_independent_witness :
    (followSpeed modelA hostD 1000 createVehicleVariables 20 50 20 4.5).1 =
        (followSpeed modelA hostD 2000 { ACC_ControlMode := 1, lastUpdateTime := 1000 }
          20 50 20 4.5).1 ∧
      (followSpeed modelA { hostD with speedLimit := 30 } 1000
          { ACC_ControlMode := 0, lastUpdateTime := 0 } 20 110 20 4.5).1 = 24 ∧
      (followSpeed modelA { hostD with speedLimit := 30 } 1000
          { ACC_ControlMode := 1, lastUpdateTime := 0 } 20 110 20 4.5).1 = 23.5 := by
  refine ⟨(followSpeed_state_independent modelA hostD 1000 2000 createVehicleVariables
    { ACC_ControlMode := 1, lastUpdateTime := 1000 } 20 50 20 4.5).1 (Or.inr (by norm_num)),
    ?_, ?_⟩
  · rw [followSpeed_fst, v_fst]
    norm_num [accelACC, accelSpeedControl, ACCEL2SPEED, MAX2, MIN2, hostD, hostA, modelA,
      Model.ofDefaults, DEFAULT_SC_GAIN]
  · rw [followSpeed_fst, v_fst]
    norm_num [accelACC, accelGapControl, fabs, ACCEL2SPEED, MAX2, MIN2, hostD, hostA, modelA,
      Model.ofDefaults, DEFAULT_GCC_GAIN_SPEED, DEFAULT_GCC_GAIN_SPACE, abs_lt]

/-! ## Fresh vehicle variables -/

/-- C18: `createVehicleVariables` returns mode 0 and time step 0, and from these
variables a run of `_v` calls that are all made at time step 0 leaves the
variables as they are after every call, so the mode stays 0; a call of the run
with a gap below 100 still returns the speed of the gap law. -/
theorem fresh_state_time_zero (m : Model) (h : Host) (cs : List Call)
    (hcs : ∀ c ∈ cs, c.now = 0) :
    createVehicleVariables = { ACC_ControlMode := 0, lastUpdateTime := 0 } ∧
      (∀ s ∈ traceV m h createVehicleVariables cs, s = createVehicleVariables) ∧
      (∀ s ∈ traceV m h createVehicleVariables cs, s.ACC_ControlMode = 0) ∧
      (∀ c ∈ cs, c.gap2pred < 100 →
        (_v m h c.now createVehicleVariables c.gap2pred c.speed c.predSpeed c.desSpeed).1 =
            max 0 (c.speed + ACCEL2SPEED h (accelGapControl m h c.gap2pred c.speed c.predSpeed)) ∧
          (_v m h c.now createVehicleVariables c.gap2pred c.speed c.predSpeed
            c.desSpeed).2.ACC_ControlMode = 0) := by
  have hconst : ∀ s ∈ traceV m h createVehicleVariables cs, s = createVehicleVariables :=
    traceV_of_same_time m h 0 cs createVehicleVariables rfl hcs
  refine ⟨rfl, hconst, ?_, ?_⟩
  · intro s hs
    rw [hconst s hs]
    rfl
  · intro c hc hgap
    have hnot : ¬ c.gap2pred > 120 := by
      intro hgt
      linarith
    constructor
    · rw [v_fst, MAX2_eq_max]
      simp [accelACC, hgap, hnot]
    · have hstep := stepV_of_same_time m h createVehicleVariables c (by rw [hcs c hc]; rfl)
      unfold stepV at hstep
      rw [hstep]
      rfl

/-- C18, evaluated: from fresh variables the calls with gaps 50, 150 and 50 at
time step 0 leave mode 0, and the first of them returns the gap law speed 21.1. -/
theorem fresh_state_time_zero_witness :
    (∀ s ∈ traceV modelA hostA createVehicleVariables [callNearZero, callFarZero, callNearZero],
        s.ACC_ControlMode = 0) ∧
      (_v modelA hostA 0 createVehicleVariables 50 20 20 30).1 = 21.1 ∧
      (_v modelA hostA 0 createVehicleVariables 50 20 20 30).2.ACC_ControlMode = 0 := by
  have hthm := fresh_state_time_zero modelA hostA [callNearZero, callFarZero, callNearZero]
    (by
      intro c hc
      simp only [List.mem_cons, List.mem_singleton, List.not_mem_nil, or_false] at hc
      rcases hc with hc | hc | hc <;> rw [hc] <;> rfl)
  have hcall := hthm.2.2.2 callNearZero (List.mem_cons_self _ _)
    (by norm_num [callNearZero])
  refine ⟨hthm.2.2.1, ?_, hcall.2⟩
  have hspeed := hcall.1
  simp only [callNearZero] at hspeed
  rw [hspeed]
  norm_num [accelGapControl, fabs, ACCEL2SPEED, hostA, modelA, Model.ofDefaults,
    DEFAULT_GCC_GAIN_SPEED, DEFAULT_GCC_GAIN_SPACE, abs_lt]

/-! ## Equilibrium of the gap control law -/

/-- C19: when the leader drives at the speed of the vehicle, the speed is
non-negative and the gap less the minimum gap equals headway time times speed,
`accelGapControl` returns 0, and `_v` returns the speed unchanged for a gap
below 100 and for a gap from 100 to 120 in mode 1 (gap control). -/
theorem gap_law_equilibrium (m : Model) (h : Host) (now : SUMOTime) (vars : ACCVehicleVariables)
    (gap2pred speed predSpeed desSpeed : SUMOReal) (hs : 0 ≤ speed) (hpred : predSpeed = speed)
    (hzero : gap2pred - h.minGap = m.myHeadwayTime * speed) :
    accelGapControl m h gap2pred speed predSpeed = 0 ∧
      (gap2pred < 100 → (_v m h now vars gap2pred speed predSpeed desSpeed).1 = speed) ∧
      (100 ≤ gap2pred → gap2pred ≤ 120 → vars.ACC_ControlMode = 1 →
        (_v m h now vars gap2pred speed predSpeed desSpeed).1 = speed) := by
  have hacc : accelGapControl m h gap2pred speed predSpeed = 0 := by
    have hse : gap2pred - h.minGap - m.myHeadwayTime * speed = 0 := by rw [hzero]; ring
    have h02 : (0 : SUMOReal) < 0.2 := by norm_num
    have h01 : (0 : SUMOReal) < 0.1 := by norm_num
    unfold accelGapControl fabs
    dsimp only
    rw [hse, hpred]
    simp [h02, h01]
  refine ⟨hacc, ?_, ?_⟩
  · intro hgap
    have hnot : ¬ gap2pred > 120 := by
      intro hgt
      linarith
    rw [v_fst, MAX2_eq_max]
    simp only [accelACC, hgap, hnot, if_true, if_false, hacc, ACCEL2SPEED, zero_mul, add_zero]
    exact max_eq_right hs
  · intro hlo hhi hmode
    rw [v_fst, MAX2_eq_max]
    have hne : ¬ vars.ACC_ControlMode = 0 := by rw [hmode]; decide
    simp only [accelACC, not_lt.mpr hhi, not_lt.mpr hlo, hne, if_false, hacc, ACCEL2SPEED,
      zero_mul, add_zero]
    exact max_eq_right hs

/-- C19, evaluated: at speed 20 behind a leader at speed 20 with gap 22.5 (minimum
gap 2.5, headway time 1) the acceleration is 0 and `_v` returns 20. -/
theorem gap_law_equilibrium_witness :
    accelGapControl modelA hostA 22.5 20 20 = 0 ∧
      (_v modelA hostA 1000 createVehicleVariables 22.5 20 20 30).1 = 20 := by
  have hthm := gap_law_equilibrium modelA hostA 1000 createVehicleVariables 22.5 20 20 30
    (by norm_num) rfl (by norm_num [hostA, modelA, Model.ofDefaults])
  exact ⟨hthm.1, hthm.2.1 (by norm_num)⟩

end MSCFModel_MAC
